import Mathlib

/-!
Shallow embedding of the load balancer's core (Backend, Servers, selection,
tidy, retry/failover) and proofs about the claims of its specification.

Conventions of the embedding:
- A Go slice access `s[i]` that is out of range is a runtime panic; functions
  that can hit one return a `Bool` flag (`true` = the operation panicked; the
  accompanying list is the state reached so far) or `Except Unit` (`.error ()`
  = the operation panicked).
- Go loops are embedded as structurally recursive functions on a fuel counter
  chosen large enough that, under the loop's own exit/panic conditions, the
  fuel can never be exhausted first; the fuel-zero fallback agrees with what
  the loop does on the inputs that can actually reach it.
- Machine integers: `capacity` is a Go `int` (embedded as `Int`), `flow` a
  `uint64` (embedded as `Nat`); none of the claimed behaviour exercises
  overflow. Loop index `idx` of `Tidy` is a Go `int` and can go negative, so
  it is embedded as `Int`.
- The health probe (`isBackendAlive`, a TCP dial) is external I/O, passed as
  an oracle `probe : String → Bool`.
-/

namespace LoadBalancer

/-- Backend (source `part_000` lines 17-24): URL (its string form), liveness
flag, declared capacity (Go `int`) and current flow (Go `uint64`). The mutex
only matters for concurrency; the sequential embedding drops it. -/
structure Backend where
  url : String
  alive : Bool
  capacity : Int
  flow : Nat
deriving DecidableEq

/-- Backend.SetAlive (lines 26-30): write the liveness flag. -/
def Backend.SetAlive (b : Backend) (alive : Bool) : Backend :=
  { b with alive := alive }

/-- Backend.IsAlive (lines 33-38): read the liveness flag. -/
def Backend.IsAlive (b : Backend) : Bool :=
  b.alive

/-- Backend.Free (lines 41-46): `capacity - int(flow)`. -/
def Backend.Free (b : Backend) : Int :=
  b.capacity - (b.flow : Int)

/-- Servers (lines 49-52): the pool's member list and the shared cursor
(`current`, a `uint64`; no claimed behaviour exercises its wraparound). -/
structure Servers where
  backends : List Backend
  current : Nat
deriving DecidableEq

/-- MarkBackendStatus (lines 69-75): linear scan; every member whose URL
string equals the given one gets `SetAlive alive`; the others are untouched. -/
def Servers.MarkBackendStatus (s : Servers) (u : String) (alive : Bool) : Servers :=
  { s with backends := s.backends.map (fun b => if b.url = u then b.SetAlive alive else b) }

/-- Scan loop of GetNextBackend (lines 78-82):
`next := 0; for !s.backends[next].IsAlive() { next++ }`.
Returns the first index with a live backend together with that backend, or
`.error ()` when the access `s.backends[next]` goes past the end of the slice
(Go: index out of range panic). Fuel `bs.length + 1 - next` is exactly the
number of accesses before an exit, so the fuel-zero fallback is unreachable
from the entry point; it also answers `.error ()`. -/
def scanAliveLoop : Nat → List Backend → Nat → Except Unit (Nat × Backend)
  | 0, _, _ => .error ()
  | fuel + 1, bs, next =>
    if h : next < bs.length then
      if (bs.get ⟨next, h⟩).IsAlive then .ok (next, bs.get ⟨next, h⟩)
      else scanAliveLoop fuel bs (next + 1)
    else .error ()

/-- Tidy's loop (lines 91-96):
`for ; s.backends[idx].Free() > s.backends[idx+1].Free() && idx+1 < l; idx-- { swap }`.
Go's `&&` evaluates left to right, so both slice accesses happen before the
`idx+1 < l` bound is consulted: an access with `idx` or `idx+1` outside
`[0, len)` is a panic (`true` in the second component; the first component is
the list state at that moment). Inside the in-bounds branch `idx ≥ 0`, so the
Go index `idx+1` is written `idx.toNat + 1`. Each iteration decreases `idx`
by one and the loop stops (or panics) no later than `idx = -1`, so fuel
`(idx + 2).toNat` can never run out at an index ≥ -1; the fuel-zero fallback
is reached only when the very first access already has `idx < -1`, where Go
panics as well, so it answers `(bs, true)`. -/
def tidyLoop : Nat → List Backend → Nat → Int → List Backend × Bool
  | 0, bs, _, _ => (bs, true)
  | fuel + 1, bs, l, idx =>
    if hA : 0 ≤ idx ∧ idx < (bs.length : Int) then
      if hB : 0 ≤ idx + 1 ∧ idx + 1 < (bs.length : Int) then
        if (bs.get ⟨idx.toNat, by omega⟩).Free > (bs.get ⟨idx.toNat + 1, by omega⟩).Free then
          if idx + 1 < (l : Int) then
            tidyLoop fuel
              ((bs.set idx.toNat (bs.get ⟨idx.toNat + 1, by omega⟩)).set (idx.toNat + 1)
                (bs.get ⟨idx.toNat, by omega⟩))
              l (idx - 1)
          else (bs, false)
        else (bs, false)
      else (bs, true)
    else (bs, true)

/-- Tidy (lines 91-96): `l := len(s.backends)` then the swap loop. Result:
the member list after the loop and whether the loop panicked. -/
def Tidy (bs : List Backend) (idx : Int) : List Backend × Bool :=
  tidyLoop (idx + 2).toNat bs bs.length idx

/-- GetNextBackend (lines 77-89): scan from 0 for the first live backend;
`defer s.Tidy(next)`; store the cursor when `next != 0`; return
`s.backends[next]`. The scan running past the end of the slice is a panic,
and a panic in the deferred `Tidy` also propagates out of the call (the
already-computed return value is lost), so both are `.error ()`. -/
def Servers.GetNextBackend (s : Servers) : Except Unit (Backend × Servers) :=
  match scanAliveLoop (s.backends.length + 1) s.backends 0 with
  | .error _ => .error ()
  | .ok (next, b) =>
    let cur := if next ≠ 0 then next else s.current
    let t := Tidy s.backends (next : Int)
    if t.2 then .error () else .ok (b, { backends := t.1, current := cur })

/-- Loop of AddBackend (lines 55-61) after the append:
`idx := len(s.backends); for s.backends[idx].capacity > s.backends[idx-1].capacity && idx != 0 { swap }`.
Both accesses happen before the `idx != 0` test, so `idx` or `idx-1` outside
`[0, len)` is a panic. `idx` is never changed by the body, and a swap makes
the comparison false, so at most one iteration can ever run; the fuel-zero
fallback is unreachable for any positive fuel budget. -/
def addLoop : Nat → List Backend → Int → List Backend × Bool
  | 0, bs, _ => (bs, false)
  | fuel + 1, bs, idx =>
    if hA : 0 ≤ idx ∧ idx < (bs.length : Int) then
      if hB : 0 ≤ idx - 1 ∧ idx - 1 < (bs.length : Int) then
        if (bs.get ⟨idx.toNat, by omega⟩).capacity >
            (bs.get ⟨(idx - 1).toNat, by omega⟩).capacity then
          if idx ≠ 0 then
            addLoop fuel
              ((bs.set (idx - 1).toNat (bs.get ⟨idx.toNat, by omega⟩)).set idx.toNat
                (bs.get ⟨(idx - 1).toNat, by omega⟩))
              idx
          else (bs, false)
        else (bs, false)
      else (bs, true)
    else (bs, true)

/-- AddBackend (lines 55-61): `s.backends = append(s.backends, backend)`,
`idx := len(s.backends)` (note: the new length, one past the appended
element), then the bubble loop. Result: list after the call and whether it
panicked. -/
def AddBackend (bs : List Backend) (b : Backend) : List Backend × Bool :=
  addLoop (bs.length + 2) (bs ++ [b]) ((bs ++ [b]).length : Int)

/-- HealthCheck (lines 98-108): for every member, probe its URL and
`SetAlive` the result. The TCP probe `isBackendAlive` is external I/O,
passed as the oracle `probe`. -/
def HealthCheck (probe : String → Bool) (bs : List Backend) : List Backend :=
  bs.map (fun b => b.SetAlive (probe b.url))

/-- Request context (the values the handlers read through
`r.Context().Value`): the `Attempts` and `Retry` entries, absent when never
set. -/
structure ReqCtx where
  attempts : Option Int
  retry : Option Int
deriving DecidableEq

/-- GetAttemptsFromContext (lines 122-127): the `Attempts` value, 1 when
absent. -/
def GetAttemptsFromContext (c : ReqCtx) : Int :=
  c.attempts.getD 1

/-- GetRetryFromContext (lines 129-134): the `Retry` value, 0 when absent. -/
def GetRetryFromContext (c : ReqCtx) : Int :=
  c.retry.getD 0

/-- Outcome of the entry point `lb`: a 503 response, a dispatch of the
request to a backend (with the pool state after selection), or a panic
escaping from `GetNextBackend`. -/
inductive LbOutcome where
  | unavailable
  | proxied (b : Backend) (after : Servers)
  | crash
deriving DecidableEq

/-- lb (lines 137-151): if `attempts > 3` answer 503; otherwise select via
`GetNextBackend` and proxy to the result. The source's `if backend != nil`
test cannot fail (`GetNextBackend` never returns nil — it panics instead), so
the trailing 503 is unreachable and the select outcome is either a dispatch
or the selection panic. -/
def lb (s : Servers) (c : ReqCtx) : LbOutcome :=
  if GetAttemptsFromContext c > 3 then .unavailable
  else
    match s.GetNextBackend with
    | .error _ => .crash
    | .ok (b, after) => .proxied b after

/-- Action taken by one run of the error handler: wait `backoffMs` and
re-dispatch to the same backend with the new context, or mark the backend
dead and re-enter `lb` with the new context. -/
inductive HandlerAction where
  | retrySame (backoffMs : Nat) (newCtx : ReqCtx)
  | failover (after : Servers) (newCtx : ReqCtx)
deriving DecidableEq

/-- DefaultErrorHandler (lines 155-175), the body run on one proxy failure
for the backend at `u`: read `Retry`; when `retries < 3`, wait 10ms and
re-dispatch to the same backend with the context holding `Retry = retries`
(the source stores `retries`, not `retries + 1`); otherwise mark `u` dead,
read `Attempts`, and re-enter `lb` with `Attempts = attempts + 1` (the
`Retry` entry is left as it was). -/
def DefaultErrorHandler (s : Servers) (u : String) (c : ReqCtx) : HandlerAction :=
  let retries := GetRetryFromContext c
  if retries < 3 then
    .retrySame 10 { c with retry := some retries }
  else
    let attempts := GetAttemptsFromContext c
    .failover (s.MarkBackendStatus u false) { c with attempts := some (attempts + 1) }

/-- Driver for the always-failing-proxy scenario: every dispatch to the
backend at `u` fails and triggers `DefaultErrorHandler`. Counts, over `n`
consecutive failures, how many times the handler re-dispatched to the same
backend, and reports the failover state if the handler ever chose to fail
over within those `n` failures. -/
def retryPhase : Nat → Servers → String → ReqCtx → Nat × Option (Servers × ReqCtx)
  | 0, _, _, _ => (0, none)
  | n + 1, s, u, c =>
    match DefaultErrorHandler s u c with
    | .retrySame _ c' =>
      let r := retryPhase n s u c'
      (r.1 + 1, r.2)
    | .failover s' c' => (0, some (s', c'))

/-- Identity of a backend apart from its liveness flag: URL, capacity, flow. -/
def eraseAlive (b : Backend) : String × Int × Nat :=
  (b.url, b.capacity, b.flow)

/-- Swapping the adjacent elements at positions `i` and `i + 1` by two writes
is a permutation of the original list. -/
theorem swap_adj_perm {α : Type} :
    ∀ (i : Nat) (l : List α) (hi : i < l.length) (hj : i + 1 < l.length),
      ((l.set i (l.get ⟨i + 1, hj⟩)).set (i + 1) (l.get ⟨i, hi⟩)).Perm l := by
  intro i
  induction i with
  | zero =>
    intro l hi hj
    rcases l with _ | ⟨x, _ | ⟨y, t⟩⟩
    · simp at hi
    · simp at hj
    · exact List.Perm.swap x y t
  | succ i ih =>
    intro l hi hj
    rcases l with _ | ⟨x, t⟩
    · simp at hi
    · have hi' : i < t.length := by simp only [List.length_cons] at hi; omega
      have hj' : i + 1 < t.length := by simp only [List.length_cons] at hj; omega
      exact List.Perm.cons x (ih t hi' hj')

/-- The list `tidyLoop` leaves behind is a permutation of its input, panic or
not: the loop only ever swaps adjacent members. -/
theorem tidyLoop_fst_perm (fuel : Nat) :
    ∀ (bs : List Backend) (l : Nat) (idx : Int), ((tidyLoop fuel bs l idx).1).Perm bs := by
  induction fuel with
  | zero => intro bs l idx; exact List.Perm.refl bs
  | succ fuel ih =>
    intro bs l idx
    rw [tidyLoop]
    split_ifs with hA hB hgt hl
    · exact (ih _ l (idx - 1)).trans (swap_adj_perm idx.toNat bs (by omega) (by omega))
    all_goals exact List.Perm.refl bs

/-- A backend handed out by the scan loop is a member of the list and is
alive. -/
theorem scanAliveLoop_ok_mem (fuel : Nat) (bs : List Backend) :
    ∀ (next j : Nat) (b : Backend), scanAliveLoop fuel bs next = .ok (j, b) →
      b ∈ bs ∧ b.IsAlive = true := by
  induction fuel with
  | zero => intro next j b h; exact absurd h (by simp [scanAliveLoop])
  | succ fuel ih =>
    intro next j b h
    rw [scanAliveLoop] at h
    by_cases hlt : next < bs.length
    · rw [dif_pos hlt] at h
      by_cases ha : (bs.get ⟨next, hlt⟩).IsAlive = true
      · rw [if_pos ha] at h
        injection h with h1
        injection h1 with h2 h3
        subst h3
        exact ⟨List.get_mem bs next hlt, ha⟩
      · rw [if_neg ha] at h
        exact ih (next + 1) j b h
    · rw [dif_neg hlt] at h
      exact absurd h (by simp)

/-- A member of a pool marked dead at `u` whose URL is `u` is not alive. -/
theorem mem_mark_url_not_alive (s : Servers) (u : String) (b : Backend)
    (hb : b ∈ (s.MarkBackendStatus u false).backends) (hu : b.url = u) :
    b.IsAlive = false := by
  rcases List.mem_map.1 hb with ⟨x, _, hfx⟩
  by_cases h : x.url = u
  · rw [if_pos h] at hfx
    rw [← hfx]
    rfl
  · rw [if_neg h] at hfx
    subst hfx
    exact absurd hu h

/-- Marking with a conditional `SetAlive` does not touch URL, capacity or
flow of any member. -/
theorem markList_map_eraseAlive (u : String) (a : Bool) (bs : List Backend) :
    (bs.map (fun b => if b.url = u then b.SetAlive a else b)).map eraseAlive
      = bs.map eraseAlive := by
  rw [List.map_map]
  congr 1
  funext b
  by_cases h : b.url = u <;> simp [h, eraseAlive, Backend.SetAlive]

/-- C1: the claim says that on a pool with zero alive backends (including the
empty pool) `GetNextBackend` reports not-found without crashing and `lb`
turns that into a 503. On the code, the scan loop runs past the end of the
slice and panics instead, on the empty pool and on a pool with one dead
backend alike; `lb` crashes rather than answering service-unavailable. -/
theorem claim_c1_zero_alive_pool_crashes :
    lb { backends := [], current := 0 } { attempts := none, retry := none } = .crash ∧
    lb { backends := [⟨"a", false, 5, 0⟩], current := 0 } { attempts := none, retry := none }
      = .crash := by
  constructor <;> rfl

/-- C2: the claim says that on every pool with at least one alive backend
`GetNextBackend` returns the lowest-index alive backend. On a pool with a
single alive backend, the deferred `Tidy 0` evaluates `backends[1].Free()`
before its bounds check and panics, and the panic propagates out of
`GetNextBackend`, so no backend is returned. -/
theorem claim_c2_alive_pool_selection_crashes :
    Servers.GetNextBackend { backends := [⟨"a", true, 5, 0⟩], current := 0 } = .error () := by
  rfl

/-- C3: the claim says an always-failing request is retried exactly 3 times
per backend and makes at most 12 dispatch attempts in total before a 503.
On the code, the error handler stores the retry count unchanged, so after 13
consecutive proxy failures it has re-dispatched to the same backend 13 times
and never failed over: the claimed bounds are exceeded and no 503 is
reached. -/
theorem claim_c3_unbounded_retries :
    retryPhase 13 { backends := [⟨"a", true, 5, 0⟩], current := 0 } "a"
      { attempts := none, retry := none } = (13, none) := by
  rfl

/-- C4: the claim says that on a proxy failure with retry count below 3 the
handler waits 10ms, increments the retry count, and re-dispatches to the same
backend. The code does wait 10ms and re-dispatch, but writes `Retry = 0`
(the old count) into the new context instead of 1. -/
theorem claim_c4_retry_not_incremented :
    DefaultErrorHandler { backends := [⟨"a", true, 5, 0⟩], current := 0 } "a"
      { attempts := none, retry := some 0 }
      = .retrySame 10 { attempts := none, retry := some 0 } := by
  rfl

/-- C5: the claim says that after a terminating `Tidy idx` run the repaired
window is descending in free capacity (no adjacent pair with the earlier one
strictly smaller). On free capacities [3, 5, 4], `Tidy 1` terminates without
panic but swaps the pair that was already in descending order, leaving
[3, 4, 5]: both adjacent pairs of the repaired window have the earlier member
strictly smaller. -/
theorem claim_c5_tidy_window_ascending :
    Tidy [⟨"a", true, 3, 0⟩, ⟨"b", true, 5, 0⟩, ⟨"c", true, 4, 0⟩] 1
      = ([⟨"a", true, 3, 0⟩, ⟨"c", true, 4, 0⟩, ⟨"b", true, 5, 0⟩], false) ∧
    (Tidy [⟨"a", true, 3, 0⟩, ⟨"b", true, 5, 0⟩, ⟨"c", true, 4, 0⟩] 1).1.map Backend.Free
      = [3, 4, 5] := by
  constructor <;> rfl

/-- C6: the claim says `Tidy`'s sweep never reads past the last element nor
before the first. On a single-member pool, `Tidy 0` reads `backends[1]`
(one past the end) because Go evaluates both accesses before the
`idx+1 < l` bound; and on free capacities [5, 3], `Tidy 0` swaps, decrements
`idx` to -1, and reads `backends[-1]`. Both are panics (`true` flag). -/
theorem claim_c6_tidy_out_of_range :
    Tidy [⟨"a", true, 5, 0⟩] 0 = ([⟨"a", true, 5, 0⟩], true) ∧
    Tidy [⟨"a", true, 5, 0⟩, ⟨"b", true, 3, 0⟩] 0
      = ([⟨"b", true, 3, 0⟩, ⟨"a", true, 5, 0⟩], true) := by
  constructor <;> rfl

/-- C7: the claim says `AddBackend` followed by a lookup of the added address
finds it and duplicates are rejected. On the code, the loop after the append
sets `idx := len(s.backends)` (the new length) and its first condition reads
`s.backends[idx]`, one past the end: every `AddBackend` call panics, already
on the empty pool; no lookup can succeed and no duplicate check exists. -/
theorem claim_c7_addBackend_crashes :
    AddBackend [] ⟨"a", true, 1, 0⟩ = ([⟨"a", true, 1, 0⟩], true) := by
  rfl

/-- C8: after `MarkBackendStatus u false`, any backend `GetNextBackend`
manages to return has a URL different from `u` (and is alive): the marked
backend is ineligible until something sets it alive again, since selection
only hands out members whose `IsAlive()` is true. And marking an address
matching no member leaves the pool exactly as it was (a no-op, not an
error). -/
theorem claim_c8_mark_dead_ineligible :
    (∀ (s : Servers) (u : String) (b : Backend) (s' : Servers),
        (s.MarkBackendStatus u false).GetNextBackend = .ok (b, s') →
        b.url ≠ u ∧ b.IsAlive = true) ∧
    (∀ (s : Servers) (u : String) (a : Bool),
        (∀ x ∈ s.backends, x.url ≠ u) → s.MarkBackendStatus u a = s) := by
  constructor
  · intro s u b s' h
    simp only [Servers.GetNextBackend] at h
    split at h
    · exact absurd h (by simp)
    · rename_i next b0 hscan
      split at h
      · exact absurd h (by simp)
      · injection h with h1
        injection h1 with h2 h3
        obtain ⟨hmem, halive⟩ := scanAliveLoop_ok_mem _ _ 0 next b0 hscan
        rw [← h2]
        refine ⟨fun hu => ?_, halive⟩
        rw [mem_mark_url_not_alive s u b0 hmem hu] at halive
        exact Bool.false_ne_true halive
  · intro s u a hno
    have hmap : ∀ bs : List Backend, (∀ x ∈ bs, x.url ≠ u) →
        bs.map (fun b => if b.url = u then b.SetAlive a else b) = bs := by
      intro bs
      induction bs with
      | nil => intro _; rfl
      | cons x t ih =>
        intro hx
        simp only [List.map_cons]
        rw [if_neg (hx x (by simp)), ih (fun y hy => hx y (List.mem_cons_of_mem x hy))]
    show ({ s with backends := _ } : Servers) = s
    rw [hmap s.backends hno]

/-- C8 witness: on the pool [u(cap 9), v(cap 1), w(cap 2)], all alive, marking
"u" dead makes the next selection return v, whose URL differs from "u"; and
marking "u" on a pool without that address changes nothing. -/
theorem claim_c8_witness :
    ((⟨"v", true, 1, 0⟩ : Backend).url ≠ "u" ∧
      (⟨"v", true, 1, 0⟩ : Backend).IsAlive = true) ∧
    Servers.MarkBackendStatus ⟨[⟨"x", true, 1, 0⟩], 0⟩ "u" false
      = (⟨[⟨"x", true, 1, 0⟩], 0⟩ : Servers) :=
  ⟨claim_c8_mark_dead_ineligible.1 ⟨[⟨"u", true, 9, 0⟩, ⟨"v", true, 1, 0⟩, ⟨"w", true, 2, 0⟩], 0⟩
      "u" ⟨"v", true, 1, 0⟩
      ⟨[⟨"u", false, 9, 0⟩, ⟨"v", true, 1, 0⟩, ⟨"w", true, 2, 0⟩], 1⟩ (by rfl),
    claim_c8_mark_dead_ineligible.2 ⟨[⟨"x", true, 1, 0⟩], 0⟩ "u" false (by decide)⟩

/-- C9: at top-level dispatch, a request whose `Attempts` value exceeds 3 is
answered with service-unavailable for every pool whatsoever — in particular
before any backend selection can happen or crash — and a request carrying no
`Attempts` value is treated as `attempts = 1`. -/
theorem claim_c9_attempts_guard :
    (∀ (s : Servers) (c : ReqCtx), GetAttemptsFromContext c > 3 → lb s c = .unavailable) ∧
    (∀ r : Option Int, GetAttemptsFromContext { attempts := none, retry := r } = 1) := by
  constructor
  · intro s c h
    rw [lb, if_pos h]
  · intro r
    rfl

/-- C9 witness: a request with `Attempts = 4` gets service-unavailable even on
the empty pool (on which selection would crash), and a request with no
`Attempts` value counts as 1 attempt. -/
theorem claim_c9_witness :
    lb ⟨[], 0⟩ ⟨some 4, none⟩ = .unavailable ∧
    GetAttemptsFromContext ⟨none, none⟩ = 1 :=
  ⟨claim_c9_attempts_guard.1 ⟨[], 0⟩ ⟨some 4, none⟩ (by decide),
    claim_c9_attempts_guard.2 none⟩

/-- C10: every pool operation other than AddBackend preserves the member
multiset: `Tidy` (and with it the pool mutation of `GetNextBackend`) only
permutes members, and `MarkBackendStatus` and `HealthCheck` change at most
the liveness flags — URL, capacity and flow of every member are untouched and
no member is added, removed or replaced. -/
theorem claim_c10_pool_preserved :
    (∀ (bs : List Backend) (idx : Int), ((Tidy bs idx).1).Perm bs) ∧
    (∀ (s : Servers) (u : String) (a : Bool),
      (s.MarkBackendStatus u a).backends.map eraseAlive = s.backends.map eraseAlive) ∧
    (∀ (probe : String → Bool) (bs : List Backend),
      (HealthCheck probe bs).map eraseAlive = bs.map eraseAlive) ∧
    (∀ (s : Servers) (b : Backend) (s' : Servers),
      s.GetNextBackend = .ok (b, s') → s'.backends.Perm s.backends) := by
  refine ⟨fun bs idx => tidyLoop_fst_perm _ bs bs.length idx,
    fun s u a => markList_map_eraseAlive u a s.backends,
    fun probe bs => ?_, fun s b s' h => ?_⟩
  · rw [HealthCheck, List.map_map]
    congr 1
  · simp only [Servers.GetNextBackend] at h
    split at h
    · exact absurd h (by simp)
    · rename_i next b0 hscan
      split at h
      · exact absurd h (by simp)
      · injection h with h1
        injection h1 with h2 h3
        subst h3
        exact tidyLoop_fst_perm _ s.backends s.backends.length next

/-- C10 witness: on a two-member pool in order, a successful selection leaves
the member list a permutation of (here: equal to) itself. -/
theorem claim_c10_witness :
    (Servers.mk [⟨"a", true, 1, 0⟩, ⟨"b", true, 2, 0⟩] 0).backends.Perm
      [⟨"a", true, 1, 0⟩, ⟨"b", true, 2, 0⟩] :=
  claim_c10_pool_preserved.2.2.2 ⟨[⟨"a", true, 1, 0⟩, ⟨"b", true, 2, 0⟩], 0⟩
    ⟨"a", true, 1, 0⟩ ⟨[⟨"a", true, 1, 0⟩, ⟨"b", true, 2, 0⟩], 0⟩ (by rfl)

end LoadBalancer
